import Mathlib

/-!
Shallow embedding of `src/streamlit_app.py` (the HEARTEST PCG analyzer) and
verification of the specification's claims about it.

Modelling conventions:
* JSON scalar values stored in a case record are modelled by `Value`
  (strings, Python ints, Python floats as rationals); a Python dict is an
  association list `Record`; the patient-data JSON file is `FileState`:
  `none` when the file does not exist, `some l` when it holds the JSON
  array `l` of records.
* Machine floats are modelled by `ℚ`; `round(x, 2)` by `round2`.
* Streamlit button handlers become pure functions from the widget state to
  the produced UI messages, the resulting file state, and (for the SMS
  handler) the list of outbound API requests.  A Python runtime fault
  (`NameError`) is an `Except.error`.
* The Twilio client call is modelled by an oracle
  `apiSend : SmsRequest → Except String Unit` giving the outcome of
  `client.messages.create`; an `Except.error e` is a raised exception with
  message `e`.
-/

/-- A JSON scalar value as stored in a case record. -/
inductive Value where
  | str : String → Value
  | int : Int → Value
  | rat : ℚ → Value
deriving DecidableEq

/-- A Python dict persisted as a JSON object: an association list. -/
abbrev Record := List (String × Value)

/-- The patient-data file: `none` = file absent, `some l` = file holds the
JSON array `l`. -/
abbrev FileState := Option (List Record)

/-- `save_patient_data` (lines 25-33): read the whole file (or start from
`[]` when absent), append the record in memory, write the whole file. -/
def save_patient_data (data : Record) (fs : FileState) : FileState :=
  let existing := match fs with
    | some l => l
    | none => []
  some (existing ++ [data])

/-- `load_patient_data` (lines 36-40): the file contents, or `[]` when the
file does not exist. -/
def load_patient_data (fs : FileState) : List Record :=
  match fs with
  | some l => l
  | none => []

/-- The request handed to `client.messages.create`, together with the
credentials used to build the `Client`. -/
structure SmsRequest where
  accountSid : String
  authToken : String
  fromNumber : String
  toNumber : String
  body : String
deriving DecidableEq

/-- `send_sms` (lines 43-52): the credentials are hard-coded literals; the
function builds a client from them and issues one create-message call. -/
def send_sms (phone_number message : String) : SmsRequest :=
  { accountSid := "AC15ee7441c990e6e8a5afc996ed4a55a1"
    authToken := "6bc0831dae8edb1753ace573a92b6337"
    fromNumber := "+19096391894"
    toNumber := phone_number
    body := message }

/-- One step of `scipy.signal.lfilter`'s difference equation
`a[0]*y[n] = sum_k b[k]*x[n-k] - sum_{k>=1} a[k]*y[n-k]`, producing `y[n]`
from the input `x` and the outputs `ys = [y[0], ..., y[n-1]]` computed so
far (out-of-range samples count as 0). -/
def lfilterStep (b a : List ℚ) (a0 : ℚ) (x ys : List ℚ) (n : ℕ) : ℚ :=
  let bsum := (List.range b.length).foldl
    (fun s k => if k ≤ n then s + b.getD k 0 * x.getD (n - k) 0 else s) 0
  let asum := (List.range a.length).foldl
    (fun s k => if 1 ≤ k ∧ k ≤ n then s + a.getD k 0 * ys.getD (n - k) 0 else s) 0
  (bsum - asum) / a0

/-- `scipy.signal.lfilter(b, a, x)`: apply the IIR difference equation along
the input, one output sample per input sample. -/
def lfilter (b a x : List ℚ) : List ℚ :=
  let a0 := a.getD 0 0
  (List.range x.length).foldl (fun ys n => ys ++ [lfilterStep b a a0 x ys n]) []

/-- `reduce_noise` (lines 55-57): design the coefficients with
`butter(6, cutoff)` and delegate to `lfilter`.  `butter` is an external
SciPy design routine (its real coefficients are irrational), so it is taken
as a parameter `butter : ℕ → ℚ → List ℚ × List ℚ` mapping order and cutoff
to the `(b, a)` coefficient vectors; `sr` is accepted and unused, as in the
source. -/
def reduce_noise (butter : ℕ → ℚ → List ℚ × List ℚ) (audio : List ℚ) (sr : ℕ)
    (cutoff : ℚ := 0.05) : List ℚ :=
  let ba := butter 6 cutoff
  lfilter ba.1 ba.2 audio

/-- The characters after the last `'/'` of a path (all of it when there is
no `'/'`): scanning left to right, a slash resets the accumulator. -/
def afterLastSlash (l : List Char) : List Char :=
  l.foldl (fun acc c => if c = '/' then [] else acc ++ [c]) []

/-- `os.path.basename`: the component after the last path separator. -/
def basename (p : String) : String := String.mk (afterLastSlash p.data)

/-- `valve_labels` (line 116). -/
def valve_labels : List String := ["Aortic", "Pulmonary", "Tricuspid", "Mitral"]

def UPLOAD_FOLDER : String := "uploaded_audios"

def EDITED_FOLDER : String := "edited_audios"

/-- The `valve_paths` dict built by the upload loop (lines 117-127):
`uploaded label` is the name of the file uploaded for `label`, when any;
each uploaded file is stored under `UPLOAD_FOLDER/{label}_{name}` and the
dict maps the label to that path, in `valve_labels` order. -/
def valve_paths (uploaded : String → Option String) : List (String × String) :=
  valve_labels.filterMap fun label =>
    (uploaded label).map fun n => (label, UPLOAD_FOLDER ++ "/" ++ label ++ "_" ++ n)

/-- The sidebar patient-info widgets (lines 132-139). -/
structure PatientForm where
  name : String
  age : Int
  height : ℚ
  weight : ℚ
  gender : String
  notes : String
  phone : String
deriving DecidableEq

/-- Python `round(q, 2)`: round to two decimal places (floats modelled by
rationals, ties by `Int.round`). -/
def round2 (q : ℚ) : ℚ := (round (q * 100) : ℤ) / 100

/-- The script-level `bmi` binding (lines 141-143): defined (and displayed)
only when `height` and `weight` are both truthy, i.e. nonzero. -/
def script_bmi (height weight : ℚ) : Option ℚ :=
  if height ≠ 0 ∧ weight ≠ 0 then some (round2 (weight / ((height / 100) ^ 2))) else none

/-- A Streamlit UI message produced by a handler. -/
inductive UIMsg where
  | success : String → UIMsg
  | warning : String → UIMsg
  | error : String → UIMsg
  | info : String → UIMsg
deriving DecidableEq

/-- `edit_and_show_waveform` (lines 80-112), restricted to its return
value: the edited copy of `path` lives at `EDITED_FOLDER/basename(path)`.
(The audio processing it renders is `reduce_noise`, modelled above.) -/
def edit_and_show_waveform (path : String) : String :=
  EDITED_FOLDER ++ "/" ++ basename path

/-- The `edited_files` list of the save handler (lines 147-150): for each
label in `valve_labels` order, the basename of the edited path of that
label's entry in `valve_paths`.  The dict access `valve_paths[label]` is
modelled with a `""` default; the handler only runs it under the
`len(valve_paths) == 4` guard, where every lookup succeeds. -/
def edited_files (uploaded : String → Option String) : List String :=
  valve_labels.map fun label =>
    basename (edit_and_show_waveform (((valve_paths uploaded).lookup label).getD ""))

/-- The `data` dict of the save handler (lines 152-162). -/
def case_record (form : PatientForm) (bmi : ℚ) (efs : List String) (date : String) :
    Record :=
  [("name", Value.str form.name),
   ("age", Value.int form.age),
   ("gender", Value.str form.gender),
   ("notes", Value.str form.notes),
   ("height", Value.rat form.height),
   ("weight", Value.rat form.weight),
   ("bmi", Value.rat bmi),
   ("file", Value.str (String.intercalate ", " efs)),
   ("date", Value.str date)]

/-- The `Save Patient Case` button handler (lines 145-165): when all four
valve files are uploaded, build the record and persist it, reporting
success; referencing the unbound `bmi` variable (height or weight zero) is
a `NameError`; otherwise the handler silently does nothing. -/
def save_case_handler (form : PatientForm) (uploaded : String → Option String)
    (date : String) (fs : FileState) : Except String (List UIMsg × FileState) :=
  if (valve_paths uploaded).length = 4 then
    match script_bmi form.height form.weight with
    | none => Except.error "NameError: name bmi is not defined"
    | some b =>
      Except.ok ([UIMsg.success "Patient data saved."],
        save_patient_data (case_record form b (edited_files uploaded) date) fs)
  else
    Except.ok ([], fs)

/-- The SMS body built by the send handler (lines 176-180). -/
def sms_message (form : PatientForm) (bmi : ℚ) (date : String) : String :=
  "🌹 PCG Case Summary\n" ++
  "Name: " ++ form.name ++ "\nAge: " ++ toString form.age ++
  "\nGender: " ++ form.gender ++ "\nBMI: " ++ toString bmi ++
  "\nDate: " ++ date ++ "\nNotes: " ++ form.notes

/-- The `Send Case via SMS` button handler (lines 173-186): with all four
files uploaded and a nonempty phone, it sends one SMS inside a
`try`/`except` that turns any exception (including a `NameError` from an
unbound `bmi`) into a UI error string; otherwise it warns.  Returns the UI
messages, the API requests actually issued, and the (never touched) file
state. -/
def send_case_handler (form : PatientForm) (uploaded : String → Option String)
    (apiSend : SmsRequest → Except String Unit) (date : String) (fs : FileState) :
    List UIMsg × List SmsRequest × FileState :=
  if (valve_paths uploaded).length = 4 ∧ form.phone ≠ "" then
    match script_bmi form.height form.weight with
    | none => ([UIMsg.error "❌ Failed to send SMS: name bmi is not defined"], [], fs)
    | some b =>
      let req := send_sms form.phone (sms_message form b date)
      match apiSend req with
      | Except.ok _ => ([UIMsg.success "📨 Case sent via SMS."], [req], fs)
      | Except.error e => ([UIMsg.error ("❌ Failed to send SMS: " ++ e)], [req], fs)
  else
    ([UIMsg.warning "Please complete all uploads and phone number."], [], fs)

/-- Whether a list of UI messages contains a warning. -/
def has_warning (msgs : List UIMsg) : Bool :=
  msgs.any fun m => match m with
    | UIMsg.warning _ => true
    | _ => false

/-- Python `entry[k]`: the value, or a `KeyError` when the key is absent. -/
def dict_get (r : Record) (k : String) : Except String Value :=
  match r.lookup k with
  | some v => Except.ok v
  | none => Except.error ("KeyError: " ++ k)

/-- The string rendered for a value inside an f-string. -/
def value_str : Value → String
  | Value.str s => s
  | Value.int i => toString i
  | Value.rat q => toString q

/-- Python `entry.get(k, d)` rendered in an f-string: the value when the
key is present, else the default string. -/
def dict_getD (r : Record) (k : String) (d : String) : String :=
  match r.lookup k with
  | some v => value_str v
  | none => d

/-- Splitting a character list on a nonempty separator, fuelled by the
remaining length so that the recursion is structural: `cur` is the current
piece accumulated in reverse. -/
def pySplitAux (sep : List Char) : ℕ → List Char → List Char → List (List Char)
  | 0, cur, _ => [cur.reverse]
  | fuel + 1, cur, l =>
    match l with
    | [] => [cur.reverse]
    | c :: rest =>
      if sep.isPrefixOf (c :: rest) then
        cur.reverse :: pySplitAux sep fuel [] (List.drop sep.length (c :: rest))
      else
        pySplitAux sep fuel (c :: cur) rest

/-- Python `s.split(sep)` for a nonempty separator: the pieces between the
non-overlapping occurrences of `sep`, scanned left to right; never the
empty list. -/
def pySplit (sep s : String) : List String :=
  (pySplitAux sep.data (s.data.length + 1) [] s.data).map String.mk

/-- Python `s.split(sep)[0]`: the text before the first separator (the
whole string when the separator is absent). -/
def split_first (s sep : String) : String := (pySplit sep s).headD s

/-- Python `s.split('_', 1)[1]`: the text after the first underscore, an
`IndexError` when there is none. -/
def split_underscore_rest (s : String) : Except String String :=
  match pySplit "_" s with
  | [] => Except.error "IndexError: list index out of range"
  | [_] => Except.error "IndexError: list index out of range"
  | _ :: rest => Except.ok (String.intercalate "_" rest)

/-- The Case History rendering of one stored record (lines 191-206): the
expander title and body access `name`, `age`, `date`, `gender`, `notes` and
`file` directly (a missing key is a `KeyError`), read `height`, `weight`
and `bmi` with an `N/A` default, and derive one filename per valve label
from the first entry of the `file` field (an `IndexError` when it has no
underscore).  Returns the rendered lines, or the runtime fault. -/
def display_entry (entry : Record) : Except String (List String) := do
  let name ← dict_get entry "name"
  let age ← dict_get entry "age"
  let date ← dict_get entry "date"
  let gender ← dict_get entry "gender"
  let height := dict_getD entry "height" "N/A"
  let weight := dict_getD entry "weight" "N/A"
  let bmiv := dict_getD entry "bmi" "N/A"
  let notes ← dict_get entry "notes"
  let file ← dict_get entry "file"
  let rest ← split_underscore_rest (split_first (value_str file) ", ")
  Except.ok
    (["📌 " ++ value_str name ++ " (" ++ value_str age ++ " y/o) - " ++ value_str date,
      "Gender: " ++ value_str gender,
      "Height: " ++ height ++ " cm",
      "Weight: " ++ weight ++ " kg",
      "BMI: " ++ bmiv,
      "Notes: " ++ value_str notes] ++
     valve_labels.map fun label => label ++ "_" ++ rest)

/-- The UI messages produced by a save-handler run (none when it faults). -/
def save_msgs (r : Except String (List UIMsg × FileState)) : List UIMsg :=
  match r with
  | Except.ok (ms, _) => ms
  | Except.error _ => []

/-- A concrete filled-in patient form used to exercise the handlers. -/
def sampleForm : PatientForm :=
  { name := "Alex"
    age := 30
    height := 170
    weight := 70
    gender := "Other"
    notes := "clear"
    phone := "+15558675309" }

/-- A concrete upload state with all four valve files present. -/
def uploadsAll : String → Option String := fun label =>
  if label = "Aortic" then some "a.wav"
  else if label = "Pulmonary" then some "p.wav"
  else if label = "Tricuspid" then some "t.wav"
  else if label = "Mitral" then some "m.wav"
  else none

/-- A concrete upload state missing the Mitral valve file. -/
def uploadsThree : String → Option String := fun label =>
  if label = "Aortic" then some "a.wav"
  else if label = "Pulmonary" then some "p.wav"
  else if label = "Tricuspid" then some "t.wav"
  else none

/-- A messaging-API oracle whose create-message call always raises. -/
def apiAlwaysFails : SmsRequest → Except String Unit :=
  fun _ => Except.error "HTTP 401 Unauthorized"

/-- A messaging-API oracle whose create-message call always succeeds. -/
def apiAlwaysOk : SmsRequest → Except String Unit :=
  fun _ => Except.ok ()

/-- A concrete stored record that lacks the height, weight and bmi keys. -/
def sampleSparseEntry : Record :=
  [("name", Value.str "Alex"),
   ("age", Value.int 30),
   ("gender", Value.str "Other"),
   ("notes", Value.str "clear"),
   ("file", Value.str "Aortic_a.wav, Pulmonary_p.wav, Tricuspid_t.wav, Mitral_m.wav"),
   ("date", Value.str "2024-01-01 00:00:00")]

/-- C1: for every record `d` and every prior file state, saving `d` and then
loading returns exactly the previously stored record list with `d` appended
at the end; in particular every previously stored record is preserved
unchanged and in its original position. -/
theorem save_then_load_appends (d : Record) (fs : FileState) :
    load_patient_data (save_patient_data d fs) = load_patient_data fs ++ [d] := by
  cases fs <;> rfl

/-- C10: when the patient-data file does not exist, `load_patient_data`
returns the empty list, and `save_patient_data d` creates the file holding
exactly the one-element list `[d]`. -/
theorem load_then_save_on_missing_file (d : Record) :
    load_patient_data none = [] ∧ save_patient_data d none = some [d] :=
  ⟨rfl, rfl⟩

/-- Folding a snoc-producing function over a list grows the accumulator by
one element per list element. -/
theorem length_foldl_snoc (f : List ℚ → ℕ → ℚ) :
    ∀ (l : List ℕ) (init : List ℚ),
      (l.foldl (fun ys n => ys ++ [f ys n]) init).length = init.length + l.length := by
  intro l
  induction l with
  | nil => intro init; simp
  | cons hd tl ih =>
    intro init
    simp only [List.foldl_cons, ih, List.length_append, List.length_cons]
    simp
    omega

/-- Saving always rewrites the file to the loaded list with the record
appended. -/
theorem save_patient_data_eq (d : Record) (fs : FileState) :
    save_patient_data d fs = some (load_patient_data fs ++ [d]) := by
  cases fs <;> rfl

/-- A complete save activation (all four uploads, BMI defined) persists the
case record and reports success. -/
theorem save_case_handler_complete (form : PatientForm) (u : String → Option String)
    (date : String) (fs : FileState) (b : ℚ)
    (hc : (valve_paths u).length = 4)
    (hb : script_bmi form.height form.weight = some b) :
    save_case_handler form u date fs =
      Except.ok ([UIMsg.success "Patient data saved."],
        some (load_patient_data fs ++ [case_record form b (edited_files u) date])) := by
  simp [save_case_handler, hc, hb, save_patient_data_eq]

/-- C2: every record saved by the Save Patient Case action has exactly the
fields name, age, gender, notes, height, weight, bmi, file and date, in
that order; its file field is the `", "`-join of the edited audio file
basenames and its date field is the save timestamp. -/
theorem saved_record_fields (form : PatientForm) (u : String → Option String)
    (date : String) (fs : FileState) (b : ℚ)
    (hc : (valve_paths u).length = 4)
    (hb : script_bmi form.height form.weight = some b) :
    save_case_handler form u date fs =
      Except.ok ([UIMsg.success "Patient data saved."],
        some (load_patient_data fs ++ [case_record form b (edited_files u) date])) ∧
    (case_record form b (edited_files u) date).map Prod.fst =
      ["name", "age", "gender", "notes", "height", "weight", "bmi", "file", "date"] ∧
    (case_record form b (edited_files u) date).lookup "file" =
      some (Value.str (String.intercalate ", " (edited_files u))) ∧
    (case_record form b (edited_files u) date).lookup "date" =
      some (Value.str date) :=
  ⟨save_case_handler_complete form u date fs b hc hb, rfl, rfl, rfl⟩

/-- C4: whenever height and weight are both nonzero, the displayed BMI (the
script-level `bmi` binding) and the BMI stored by a completed save both
equal `round(weight / ((height / 100) ** 2), 2)`. -/
theorem bmi_displayed_and_stored (form : PatientForm) (u : String → Option String)
    (date : String) (fs : FileState)
    (hc : (valve_paths u).length = 4)
    (hh : form.height ≠ 0) (hw : form.weight ≠ 0) :
    script_bmi form.height form.weight =
      some (round2 (form.weight / ((form.height / 100) ^ 2))) ∧
    save_case_handler form u date fs =
      Except.ok ([UIMsg.success "Patient data saved."],
        some (load_patient_data fs ++
          [case_record form (round2 (form.weight / ((form.height / 100) ^ 2)))
            (edited_files u) date])) ∧
    (case_record form (round2 (form.weight / ((form.height / 100) ^ 2)))
        (edited_files u) date).lookup "bmi" =
      some (Value.rat (round2 (form.weight / ((form.height / 100) ^ 2)))) := by
  have hb : script_bmi form.height form.weight =
      some (round2 (form.weight / ((form.height / 100) ^ 2))) := by
    simp [script_bmi, hh, hw]
  exact ⟨hb, save_case_handler_complete form u date fs _ hc hb, rfl⟩

/-- C7: every call of `send_sms` uses the same hard-coded account SID, auth
token and sender number; they are independent of the `phone_number` and
`message` arguments (and of any configuration, of which the function has
none). -/
theorem send_sms_fixed_credentials (p1 m1 p2 m2 : String) :
    (send_sms p1 m1).accountSid = "AC15ee7441c990e6e8a5afc996ed4a55a1" ∧
    (send_sms p1 m1).authToken = "6bc0831dae8edb1753ace573a92b6337" ∧
    (send_sms p1 m1).fromNumber = "+19096391894" ∧
    (send_sms p1 m1).accountSid = (send_sms p2 m2).accountSid ∧
    (send_sms p1 m1).authToken = (send_sms p2 m2).authToken ∧
    (send_sms p1 m1).fromNumber = (send_sms p2 m2).fromNumber :=
  ⟨rfl, rfl, rfl, rfl, rfl, rfl⟩

/-- `lfilter` produces one output sample per input sample. -/
theorem lfilter_length (b a x : List ℚ) : (lfilter b a x).length = x.length := by
  unfold lfilter
  rw [length_foldl_snoc (lfilterStep b a (a.getD 0 0) x)]
  simp

/-- C8: `reduce_noise` delegates entirely to the standard design-and-apply
pipeline — it equals `lfilter` applied with the coefficients of a 6th-order
Butterworth design at the given cutoff, for any design routine `butter` —
and its output has the same length as its input. -/
theorem reduce_noise_delegates_and_preserves_length
    (butter : ℕ → ℚ → List ℚ × List ℚ) (audio : List ℚ) (sr : ℕ) (cutoff : ℚ) :
    reduce_noise butter audio sr cutoff =
      lfilter (butter 6 cutoff).1 (butter 6 cutoff).2 audio ∧
    (reduce_noise butter audio sr cutoff).length = audio.length := by
  constructor
  · rfl
  · exact lfilter_length _ _ _

/-- C5 (amended): an incomplete save or send activation never touches the
patient file and never sends an SMS; the send action then shows the
completion warning, while the save action shows no message at all. -/
theorem incomplete_form_no_effect (form : PatientForm) (u : String → Option String)
    (api : SmsRequest → Except String Unit) (date : String) (fs : FileState) :
    ((valve_paths u).length ≠ 4 →
      save_case_handler form u date fs = Except.ok ([], fs)) ∧
    (¬ ((valve_paths u).length = 4 ∧ form.phone ≠ "") →
      send_case_handler form u api date fs =
        ([UIMsg.warning "Please complete all uploads and phone number."], [], fs)) := by
  constructor
  · intro h
    unfold save_case_handler
    rw [if_neg h]
  · intro h
    unfold send_case_handler
    rw [if_neg h]

/-- C5 counterexample: activating Save Patient Case with only three valve
files uploaded produces no UI message at all — in particular no warning —
refuting the claim that every incomplete save or send activation produces a
warning (the no-effect half does hold: the file is unchanged). -/
theorem save_incomplete_without_warning :
    has_warning (save_msgs
      (save_case_handler sampleForm uploadsThree "2024-01-01 00:00:00" (some []))) = false ∧
    save_case_handler sampleForm uploadsThree "2024-01-01 00:00:00" (some []) =
      Except.ok ([], some []) := by
  constructor
  · rfl
  · rfl

/-- Closed instance of the amended C5 statement: three uploads and an empty
phone leave both handlers without effect, and the send handler warns. -/
theorem incomplete_form_no_effect_witness :
    save_case_handler sampleForm uploadsThree "2024-01-01 00:00:00" (some []) =
      Except.ok ([], some []) ∧
    send_case_handler { sampleForm with phone := "" } uploadsThree apiAlwaysOk
        "2024-01-01 00:00:00" (some []) =
      ([UIMsg.warning "Please complete all uploads and phone number."], [], some []) := by
  constructor
  · exact (incomplete_form_no_effect sampleForm uploadsThree apiAlwaysOk
      "2024-01-01 00:00:00" (some [])).1 (by decide)
  · exact (incomplete_form_no_effect { sampleForm with phone := "" } uploadsThree
      apiAlwaysOk "2024-01-01 00:00:00" (some [])).2 (by decide)

/-- C6: when the messaging-API call raises, the send handler catches the
exception and surfaces it as the UI error string, the request list is the
single attempted request, and the patient-data file is unchanged. -/
theorem sms_failure_caught (form : PatientForm) (u : String → Option String)
    (api : SmsRequest → Except String Unit) (date : String) (fs : FileState)
    (b : ℚ) (e : String)
    (hc : (valve_paths u).length = 4) (hp : form.phone ≠ "")
    (hb : script_bmi form.height form.weight = some b)
    (he : api (send_sms form.phone (sms_message form b date)) = Except.error e) :
    send_case_handler form u api date fs =
      ([UIMsg.error ("❌ Failed to send SMS: " ++ e)],
       [send_sms form.phone (sms_message form b date)], fs) := by
  unfold send_case_handler
  rw [if_pos ⟨hc, hp⟩, hb]
  simp only [he]

/-- Closed instance of C6: a failing API call on a complete form surfaces
the exception text and leaves the file unchanged. -/
theorem sms_failure_caught_witness :
    send_case_handler sampleForm uploadsAll apiAlwaysFails "2024-01-01 00:00:00"
        (some []) =
      ([UIMsg.error ("❌ Failed to send SMS: " ++ "HTTP 401 Unauthorized")],
       [send_sms sampleForm.phone
          (sms_message sampleForm (1211 / 50) "2024-01-01 00:00:00")], some []) := by
  refine sms_failure_caught sampleForm uploadsAll apiAlwaysFails "2024-01-01 00:00:00"
    (some []) (1211 / 50) "HTTP 401 Unauthorized" (by decide) (by decide) ?_ rfl
  unfold script_bmi sampleForm round2
  norm_num [round_eq]

/-- C9 counterexample: rendering a stored record that lacks the `name`
field raises a KeyError instead of displaying with a default, refuting the
claim that every field is read with a best-effort default. -/
theorem display_missing_name_faults :
    display_entry [] = Except.error "KeyError: name" := rfl

/-- C9 (amended): only `height`, `weight` and `bmi` are read with a
best-effort `N/A` default; a record carrying `name`, `age`, `date`,
`gender`, `notes` and a `file` value whose first entry has an underscore is
rendered without fault even when all three defaulted fields are absent. -/
theorem display_defaults_only_for_body_metrics (entry : Record)
    (vn va vd vg vt vf : Value) (tail : String)
    (hn : entry.lookup "name" = some vn)
    (ha : entry.lookup "age" = some va)
    (hd : entry.lookup "date" = some vd)
    (hg : entry.lookup "gender" = some vg)
    (ht : entry.lookup "notes" = some vt)
    (hf : entry.lookup "file" = some vf)
    (hs : split_underscore_rest (split_first (value_str vf) ", ") = Except.ok tail)
    (hh : entry.lookup "height" = none)
    (hw : entry.lookup "weight" = none)
    (hb : entry.lookup "bmi" = none) :
    display_entry entry =
      Except.ok
        (["📌 " ++ value_str vn ++ " (" ++ value_str va ++ " y/o) - " ++ value_str vd,
          "Gender: " ++ value_str vg,
          "Height: N/A cm",
          "Weight: N/A kg",
          "BMI: N/A",
          "Notes: " ++ value_str vt] ++
         valve_labels.map fun label => label ++ "_" ++ tail) := by
  unfold display_entry dict_get dict_getD
  rw [hn, ha, hd, hg, ht, hf, hh, hw, hb]
  simp only [Except.bind, bind, hs]
  rfl

/-- Closed instance of the amended C9 statement at a concrete record that
lacks the height, weight and bmi keys. -/
theorem display_defaults_witness :
    display_entry sampleSparseEntry =
      Except.ok
        (["📌 " ++ value_str (Value.str "Alex") ++ " (" ++
            value_str (Value.int 30) ++ " y/o) - " ++
            value_str (Value.str "2024-01-01 00:00:00"),
          "Gender: " ++ value_str (Value.str "Other"),
          "Height: N/A cm",
          "Weight: N/A kg",
          "BMI: N/A",
          "Notes: " ++ value_str (Value.str "clear")] ++
         valve_labels.map fun label => label ++ "_" ++ "a.wav") :=
  display_defaults_only_for_body_metrics sampleSparseEntry
    (Value.str "Alex") (Value.int 30) (Value.str "2024-01-01 00:00:00")
    (Value.str "Other") (Value.str "clear")
    (Value.str "Aortic_a.wav, Pulmonary_p.wav, Tricuspid_t.wav, Mitral_m.wav")
    "a.wav" rfl rfl rfl rfl rfl rfl rfl rfl rfl rfl

/-- Folding the slash-reset scanner over slash-free characters just appends
them to the accumulator. -/
theorem foldl_slash_reset_of_slash_free (rest : List Char) :
    ∀ acc, (∀ c ∈ rest, c ≠ '/') →
      rest.foldl (fun acc c => if c = '/' then [] else acc ++ [c]) acc = acc ++ rest := by
  induction rest with
  | nil => intro acc _; simp
  | cons c cs ih =>
    intro acc h
    have hc : ¬ (c = '/') := h c (by simp)
    rw [List.foldl_cons, if_neg hc, ih _ (fun d hd => h d (by simp [hd]))]
    simp

/-- `afterLastSlash` of a string ending in a slash-free suffix after a
separator is that suffix. -/
theorem afterLastSlash_append_sep (pre rest : List Char) (h : ∀ c ∈ rest, c ≠ '/') :
    afterLastSlash (pre ++ '/' :: rest) = rest := by
  unfold afterLastSlash
  rw [List.foldl_append, List.foldl_cons, if_pos rfl,
    foldl_slash_reset_of_slash_free rest [] h]
  simp

/-- `basename` strips a directory from a slash-free final component. -/
theorem basename_dir_append (dir s : String) (h : ∀ c ∈ s.data, c ≠ '/') :
    basename (dir ++ "/" ++ s) = s := by
  unfold basename
  have hd : (dir ++ "/" ++ s).data = dir.data ++ '/' :: s.data := by
    rw [String.data_append, String.data_append]
    simp
  rw [hd, afterLastSlash_append_sep _ _ h]

/-- Appending slash-free strings is slash-free. -/
theorem slash_free_append (s t : String) (hs : ∀ c ∈ s.data, c ≠ '/')
    (ht : ∀ c ∈ t.data, c ≠ '/') : ∀ c ∈ (s ++ t).data, c ≠ '/' := by
  intro c hc
  rw [String.data_append] at hc
  rcases List.mem_append.1 hc with h | h
  exacts [hs c h, ht c h]

/-- `basename` of an upload path `dir/label_name` with slash-free label and
name is `label_name`. -/
theorem basename_label_path (dir label n : String)
    (hl : ∀ c ∈ label.data, c ≠ '/') (hn : ∀ c ∈ n.data, c ≠ '/') :
    basename (dir ++ "/" ++ label ++ "_" ++ n) = label ++ "_" ++ n := by
  have hrw : dir ++ "/" ++ label ++ "_" ++ n = dir ++ "/" ++ (label ++ "_" ++ n) := by
    simp [String.append_assoc]
  rw [hrw]
  exact basename_dir_append dir _
    (slash_free_append _ _ (slash_free_append _ _ hl (by decide)) hn)

/-- C3: a case record is saved only when all four valve files are uploaded
(the handler is a silent no-op otherwise), and the saved record's file list
has exactly four edited filenames, one per valve label, in the fixed order
Aortic, Pulmonary, Tricuspid, Mitral. -/
theorem save_requires_four_uploads_and_file_order (form : PatientForm)
    (u : String → Option String) (date : String) (fs : FileState)
    (n1 n2 n3 n4 : String) (b : ℚ) :
    (¬ ((u "Aortic").isSome ∧ (u "Pulmonary").isSome ∧
        (u "Tricuspid").isSome ∧ (u "Mitral").isSome) →
      save_case_handler form u date fs = Except.ok ([], fs)) ∧
    (u "Aortic" = some n1 → u "Pulmonary" = some n2 → u "Tricuspid" = some n3 →
     u "Mitral" = some n4 →
     (∀ c ∈ n1.data, c ≠ '/') → (∀ c ∈ n2.data, c ≠ '/') →
     (∀ c ∈ n3.data, c ≠ '/') → (∀ c ∈ n4.data, c ≠ '/') →
     script_bmi form.height form.weight = some b →
     edited_files u =
       ["Aortic_" ++ n1, "Pulmonary_" ++ n2, "Tricuspid_" ++ n3, "Mitral_" ++ n4] ∧
     save_case_handler form u date fs =
       Except.ok ([UIMsg.success "Patient data saved."],
         some (load_patient_data fs ++
           [case_record form b
             ["Aortic_" ++ n1, "Pulmonary_" ++ n2, "Tricuspid_" ++ n3, "Mitral_" ++ n4]
             date]))) := by
  constructor
  · intro h
    have hlen : (valve_paths u).length ≠ 4 := by
      unfold valve_paths valve_labels
      rcases ha : u "Aortic" with _ | na <;>
        rcases hp : u "Pulmonary" with _ | np <;>
        rcases ht : u "Tricuspid" with _ | nt <;>
        rcases hm : u "Mitral" with _ | nm <;>
        simp_all
    unfold save_case_handler
    rw [if_neg hlen]
  · intro h1 h2 h3 h4 s1 s2 s3 s4 hb
    have hvp : valve_paths u =
        [("Aortic", UPLOAD_FOLDER ++ "/" ++ "Aortic" ++ "_" ++ n1),
         ("Pulmonary", UPLOAD_FOLDER ++ "/" ++ "Pulmonary" ++ "_" ++ n2),
         ("Tricuspid", UPLOAD_FOLDER ++ "/" ++ "Tricuspid" ++ "_" ++ n3),
         ("Mitral", UPLOAD_FOLDER ++ "/" ++ "Mitral" ++ "_" ++ n4)] := by
      unfold valve_paths valve_labels
      rw [List.filterMap_cons, List.filterMap_cons, List.filterMap_cons,
        List.filterMap_cons, h1, h2, h3, h4]
      rfl
    have k1 : (valve_paths u).lookup "Aortic" =
        some (UPLOAD_FOLDER ++ "/" ++ "Aortic" ++ "_" ++ n1) := by rw [hvp]; rfl
    have k2 : (valve_paths u).lookup "Pulmonary" =
        some (UPLOAD_FOLDER ++ "/" ++ "Pulmonary" ++ "_" ++ n2) := by rw [hvp]; rfl
    have k3 : (valve_paths u).lookup "Tricuspid" =
        some (UPLOAD_FOLDER ++ "/" ++ "Tricuspid" ++ "_" ++ n3) := by rw [hvp]; rfl
    have k4 : (valve_paths u).lookup "Mitral" =
        some (UPLOAD_FOLDER ++ "/" ++ "Mitral" ++ "_" ++ n4) := by rw [hvp]; rfl
    have l1 : basename (UPLOAD_FOLDER ++ "/" ++ "Aortic" ++ "_" ++ n1) =
        "Aortic" ++ "_" ++ n1 :=
      basename_label_path UPLOAD_FOLDER "Aortic" n1 (by decide) s1
    have l2 : basename (UPLOAD_FOLDER ++ "/" ++ "Pulmonary" ++ "_" ++ n2) =
        "Pulmonary" ++ "_" ++ n2 :=
      basename_label_path UPLOAD_FOLDER "Pulmonary" n2 (by decide) s2
    have l3 : basename (UPLOAD_FOLDER ++ "/" ++ "Tricuspid" ++ "_" ++ n3) =
        "Tricuspid" ++ "_" ++ n3 :=
      basename_label_path UPLOAD_FOLDER "Tricuspid" n3 (by decide) s3
    have l4 : basename (UPLOAD_FOLDER ++ "/" ++ "Mitral" ++ "_" ++ n4) =
        "Mitral" ++ "_" ++ n4 :=
      basename_label_path UPLOAD_FOLDER "Mitral" n4 (by decide) s4
    have hef : edited_files u =
        ["Aortic_" ++ n1, "Pulmonary_" ++ n2, "Tricuspid_" ++ n3, "Mitral_" ++ n4] := by
      unfold edited_files edit_and_show_waveform valve_labels
      simp only [List.map_cons, List.map_nil, k1, k2, k3, k4, Option.getD_some,
        l1, l2, l3, l4]
      refine congrArg₂ _ ?_ (congrArg₂ _ ?_ (congrArg₂ _ ?_ (congrArg₂ _ ?_ rfl)))
      · exact basename_dir_append EDITED_FOLDER ("Aortic" ++ "_" ++ n1)
          (slash_free_append ("Aortic" ++ "_") n1 (by decide) s1)
      · exact basename_dir_append EDITED_FOLDER ("Pulmonary" ++ "_" ++ n2)
          (slash_free_append ("Pulmonary" ++ "_") n2 (by decide) s2)
      · exact basename_dir_append EDITED_FOLDER ("Tricuspid" ++ "_" ++ n3)
          (slash_free_append ("Tricuspid" ++ "_") n3 (by decide) s3)
      · exact basename_dir_append EDITED_FOLDER ("Mitral" ++ "_" ++ n4)
          (slash_free_append ("Mitral" ++ "_") n4 (by decide) s4)
    have hlen : (valve_paths u).length = 4 := by rw [hvp]; rfl
    refine ⟨hef, ?_⟩
    have hsave := save_case_handler_complete form u date fs b hlen hb
    rw [hef] at hsave
    exact hsave

/-- Closed instance of C2 at a fully filled form and four uploads. -/
theorem saved_record_fields_witness :
    save_case_handler sampleForm uploadsAll "2024-01-01 00:00:00" (some []) =
      Except.ok ([UIMsg.success "Patient data saved."],
        some (load_patient_data (some []) ++
          [case_record sampleForm
            (round2 (sampleForm.weight / ((sampleForm.height / 100) ^ 2)))
            (edited_files uploadsAll) "2024-01-01 00:00:00"])) ∧
    (case_record sampleForm
        (round2 (sampleForm.weight / ((sampleForm.height / 100) ^ 2)))
        (edited_files uploadsAll) "2024-01-01 00:00:00").map Prod.fst =
      ["name", "age", "gender", "notes", "height", "weight", "bmi", "file", "date"] ∧
    (case_record sampleForm
        (round2 (sampleForm.weight / ((sampleForm.height / 100) ^ 2)))
        (edited_files uploadsAll) "2024-01-01 00:00:00").lookup "file" =
      some (Value.str (String.intercalate ", " (edited_files uploadsAll))) ∧
    (case_record sampleForm
        (round2 (sampleForm.weight / ((sampleForm.height / 100) ^ 2)))
        (edited_files uploadsAll) "2024-01-01 00:00:00").lookup "date" =
      some (Value.str "2024-01-01 00:00:00") :=
  saved_record_fields sampleForm uploadsAll "2024-01-01 00:00:00" (some [])
    (round2 (sampleForm.weight / ((sampleForm.height / 100) ^ 2)))
    (by decide) (by simp [script_bmi, sampleForm])

/-- Closed instance of C4 at height 170 cm and weight 70 kg. -/
theorem bmi_displayed_and_stored_witness :
    script_bmi sampleForm.height sampleForm.weight =
      some (round2 (sampleForm.weight / ((sampleForm.height / 100) ^ 2))) ∧
    save_case_handler sampleForm uploadsAll "2024-01-01 00:00:00" (some []) =
      Except.ok ([UIMsg.success "Patient data saved."],
        some (load_patient_data (some []) ++
          [case_record sampleForm
            (round2 (sampleForm.weight / ((sampleForm.height / 100) ^ 2)))
            (edited_files uploadsAll) "2024-01-01 00:00:00"])) ∧
    (case_record sampleForm
        (round2 (sampleForm.weight / ((sampleForm.height / 100) ^ 2)))
        (edited_files uploadsAll) "2024-01-01 00:00:00").lookup "bmi" =
      some (Value.rat (round2 (sampleForm.weight / ((sampleForm.height / 100) ^ 2)))) :=
  bmi_displayed_and_stored sampleForm uploadsAll "2024-01-01 00:00:00" (some [])
    (by decide) (by simp [sampleForm]) (by simp [sampleForm])

/-- Closed instance of C3: with the four uploads `a.wav`, `p.wav`, `t.wav`,
`m.wav`, the saved file list is the four label-tagged names in valve
order. -/
theorem save_file_order_witness :
    edited_files uploadsAll =
      ["Aortic_" ++ "a.wav", "Pulmonary_" ++ "p.wav",
       "Tricuspid_" ++ "t.wav", "Mitral_" ++ "m.wav"] ∧
    save_case_handler sampleForm uploadsAll "2024-01-01 00:00:00" (some []) =
      Except.ok ([UIMsg.success "Patient data saved."],
        some (load_patient_data (some []) ++
          [case_record sampleForm
            (round2 (sampleForm.weight / ((sampleForm.height / 100) ^ 2)))
            ["Aortic_" ++ "a.wav", "Pulmonary_" ++ "p.wav",
             "Tricuspid_" ++ "t.wav", "Mitral_" ++ "m.wav"]
            "2024-01-01 00:00:00"])) :=
  (save_requires_four_uploads_and_file_order sampleForm uploadsAll
      "2024-01-01 00:00:00" (some []) "a.wav" "p.wav" "t.wav" "m.wav"
      (round2 (sampleForm.weight / ((sampleForm.height / 100) ^ 2)))).2
    rfl rfl rfl rfl (by decide) (by decide) (by decide) (by decide)
    (by simp [script_bmi, sampleForm])
